import Mathlib

/-!
Shallow embedding of the two-player tank game repository
(src/game.js, src/webrtc.js and the shared utils module).

JavaScript numbers are modeled as rationals (ℚ), scores as ℕ, and the
BO3/BO5/Infinity win threshold as ℕ∞ (⊤ = Infinity).  External
platform/library functions that the repository code calls are modeled
explicitly: Math.max on numbers is jsMax, String.prototype.trim is
jsTrim, THREE.Vector3.distanceTo is an abstract distance argument, and
JSON.parse of a signaling blob is an abstract parse argument.
-/

namespace TankGame

/-- JavaScript Math.max on two numbers. -/
def jsMax (a b : ℚ) : ℚ := if a ≤ b then b else a

/-- Auxiliary for jsTrim: drop leading characters satisfying p. -/
def dropWhileChar (p : Char → Bool) : List Char → List Char
  | [] => []
  | c :: cs => if p c then dropWhileChar p cs else c :: cs

/-- JavaScript String.prototype.trim: strip leading and trailing
whitespace. -/
def jsTrim (s : String) : String :=
  String.mk ((dropWhileChar Char.isWhitespace
    (dropWhileChar Char.isWhitespace s.data).reverse).reverse)

/-- A three.js vector, reduced to its coordinates. -/
abbrev V3 := ℚ × ℚ × ℚ

/-- A quaternion, reduced to its coordinates. -/
abbrev V4 := ℚ × ℚ × ℚ × ℚ

/-- utils.js ROLES: 'host' or 'client'. -/
inductive Role where
  | host
  | client
deriving DecidableEq, Repr

/-- utils.js getWinThreshold: mode 'bo3' needs 2 round wins, 'bo5'
needs 3, 'infinite' (and any unknown mode string, the default branch)
maps to Infinity, modeled as ⊤ : ℕ∞. -/
def getWinThreshold (mode : String) : ℕ∞ :=
  if mode = "bo3" then 2
  else if mode = "bo5" then 3
  else if mode = "infinite" then ⊤
  else ⊤

/-- game.js constants. -/
def maxPlayerHealth : ℚ := 100

def bulletSpeed : ℚ := 197

def explosionBlastRadius : ℚ := 10

def explosionMaxDamage : ℚ := 50

/-- One of gameState.player1 / gameState.player2.  The tank group is
tracked separately (player1Tank/player2Tank), as in the source. -/
structure PlayerRecord where
  username : String
  color : String
  score : ℕ
  health : ℚ
deriving DecidableEq, Repr

/-- A map object (warehouse, tree or barrier) held in the scene,
collidables, trees or barriers arrays.  `ref` models JavaScript object
identity (===, used by indexOf), `objType` is userData.type and `id`
is userData.id (empty for objects that get none). -/
structure SceneObj where
  ref : ℕ
  objType : String
  id : String
  position : V3
deriving DecidableEq, Repr

/-- An entry of decorationPositions.warehouses or .barriers. -/
structure Placement where
  x : ℚ
  y : ℚ
  z : ℚ
  rotY : ℚ
deriving DecidableEq, Repr

/-- An entry of decorationPositions.trees: stable id assigned at map
generation, position, yaw and scale. -/
structure TreePlacement where
  id : String
  x : ℚ
  y : ℚ
  z : ℚ
  rotY : ℚ
  scale : ℚ
deriving DecidableEq, Repr

/-- game.js decorationPositions: placement lists filled at map
generation time and sent inside the game_start envelope. -/
structure DecorationPositions where
  warehouses : List Placement
  trees : List TreePlacement
  barriers : List Placement
deriving DecidableEq, Repr

/-- The mapData payload of a game_start envelope; each field may be
absent on the wire, in which case the receiver substitutes []. -/
structure MapData where
  warehouses : Option (List Placement)
  trees : Option (List TreePlacement)
  barriers : Option (List Placement)
deriving DecidableEq, Repr

/-- The data object of a player_update envelope. -/
structure PlayerUpdateData where
  position : V3
  rotation : V4
  headRotation : ℚ
  turretRotation : ℚ
  velocity : V3
deriving DecidableEq, Repr

/-- game.js remotePlayerState: the latest received snapshot of the
remote entity; continuously overwritten. -/
structure RemotePlayerState where
  position : V3
  rotation : V4
  headRotation : ℚ
  turretRotation : ℚ
  velocity : V3
  lastUpdate : ℕ
deriving DecidableEq, Repr

/-- A bullet object as built by game.js spawnBullet. -/
structure Bullet where
  position : V3
  lastPosition : V3
  velocity : V3
  age : ℚ
  isLocal : Bool
deriving DecidableEq, Repr

/-- Message payloads, tagged by the wire `type` string of utils.js
MSG_TYPES.  `other` covers every type the game.js switch has no case
for (ready, round_start, game_end, sync_request, sync_response and
unknown strings), which all fall through with no effect. -/
inductive MsgData where
  | playerInfo (username color : String)
  | gameStart (mode : String) (mapData : Option MapData)
  | playerUpdate (d : PlayerUpdateData)
  | bulletSpawn (position direction : V3)
  | damage (damage : ℚ) (target : String)
  | death
  | roundEnd
  | treeDestroyed (treeId : String)
  | other (type : String)
deriving DecidableEq, Repr

/-- game.js GameState together with the module-level mutable state the
handlers touch (tanks, scene arrays, decorationPositions,
remotePlayerState).  Outgoing webrtcManager.send calls from game code
are recorded in `outbox`.  `cutscenePlaying` records that
triggerFinalCutscene handed control to the cutscene manager.
The `role` field is the in-session role; the claims under study all
concern a peer that has already chosen host or client. -/
structure GameState where
  isMultiplayer : Bool
  isTestMode : Bool
  role : Role
  player1 : PlayerRecord
  player2 : PlayerRecord
  gameMode : String
  winThreshold : ℕ∞
  isRoundActive : Bool
  isControlsLocked : Bool
  gameStarted : Bool
  cutscenePlaying : Bool
  assetsLoaded : Bool
  player1Tank : Option V3
  player2Tank : Option V3
  trees : List SceneObj
  collidables : List SceneObj
  sceneObjs : List SceneObj
  bullets : List Bullet
  explosions : List V3
  particlesSpawnedAt : List V3
  decorationPositions : DecorationPositions
  remotePlayerState : RemotePlayerState
  outbox : List MsgData
deriving DecidableEq

/-- gameState.localPlayer: the record this peer owns (createTanks
assigns player1 to the host and player2 to the client). -/
def GameState.localPlayer (s : GameState) : PlayerRecord :=
  match s.role with
  | .host => s.player1
  | .client => s.player2

/-- gameState.remotePlayer: the record the opposing peer owns. -/
def GameState.remotePlayer (s : GameState) : PlayerRecord :=
  match s.role with
  | .host => s.player2
  | .client => s.player1

/-- Mutate the record this peer owns. -/
def GameState.modifyLocal (s : GameState) (f : PlayerRecord → PlayerRecord) :
    GameState :=
  match s.role with
  | .host => { s with player1 := f s.player1 }
  | .client => { s with player2 := f s.player2 }

/-- Mutate the record the opposing peer owns. -/
def GameState.modifyRemote (s : GameState) (f : PlayerRecord → PlayerRecord) :
    GameState :=
  match s.role with
  | .host => { s with player2 := f s.player2 }
  | .client => { s with player1 := f s.player1 }

/-- The tank of the record the opposing peer owns
(gameState.remotePlayer.tank). -/
def GameState.remoteTank (s : GameState) : Option V3 :=
  match s.role with
  | .host => s.player2Tank
  | .client => s.player1Tank

/-- A webrtcManager.send call made from game.js, recorded in the
outbox; delivery is the transport layer's concern. -/
def sendMsg (s : GameState) (m : MsgData) : GameState :=
  { s with outbox := s.outbox ++ [m] }

/-- game.js triggerFinalCutscene: locks controls, hides the game UI
and hands both records and the final scores to the cutscene
collaborator (recorded as the cutscenePlaying flag). -/
def triggerFinalCutscene (s : GameState) : GameState :=
  { s with isControlsLocked := true, cutscenePlaying := true }

/-- game.js checkWinCondition: fires the final cutscene when either
score has reached the win threshold. -/
def checkWinCondition (s : GameState) : GameState :=
  if s.winThreshold ≤ (s.localPlayer.score : ℕ∞) then triggerFinalCutscene s
  else if s.winThreshold ≤ (s.remotePlayer.score : ℕ∞) then triggerFinalCutscene s
  else s

/-- game.js handleLocalDeath: broadcast death (multiplayer, non-test),
award the opponent the point, show the win message (UI only) and check
the win condition.  The 2-second respawn timer is the separate
respawnLocalPlayer event below. -/
def handleLocalDeath (s : GameState) : GameState :=
  let s1 := if s.isMultiplayer && !s.isTestMode then sendMsg s .death else s
  let s2 := s1.modifyRemote fun p => { p with score := p.score + 1 }
  checkWinCondition s2

/-- game.js respawnLocalPlayer, run 2 seconds after a local death:
restore full health and reset the local tank to its spawn point. -/
def respawnLocalPlayer (s : GameState) : GameState :=
  let s1 := s.modifyLocal fun p => { p with health := maxPlayerHealth }
  match s1.role with
  | .host => { s1 with player1Tank := some ((-50 : ℚ), 30, 0) }
  | .client => { s1 with player2Tank := some ((50 : ℚ), 30, 0) }

/-- game.js handleRemoteDeath: award the local player the point and
check the win condition. -/
def handleRemoteDeath (s : GameState) : GameState :=
  checkWinCondition (s.modifyLocal fun p => { p with score := p.score + 1 })

/-- game.js handleRemoteDamage: a damage envelope is applied only by
the owner of its target (the host owns player1, the client owns
player2); health is floored at 0 and a resulting health of 0 runs
handleLocalDeath. -/
def handleRemoteDamage (s : GameState) (damage : ℚ) (target : String) :
    GameState :=
  if target = "player1" ∧ s.role = .host then
    let h := jsMax 0 (s.player1.health - damage)
    let s1 := { s with player1 := { s.player1 with health := h } }
    if h ≤ 0 then handleLocalDeath s1 else s1
  else if target = "player2" ∧ s.role = .client then
    let h := jsMax 0 (s.player2.health - damage)
    let s1 := { s with player2 := { s.player2 with health := h } }
    if h ≤ 0 then handleLocalDeath s1 else s1
  else s

/-- The player1 block of game.js checkExplosionDamage.  `dist` is the
external THREE.Vector3.distanceTo. -/
def explosionDamagePlayer1 (dist : V3 → V3 → ℚ) (s : GameState)
    (position : V3) : GameState :=
  match s.player1Tank with
  | none => s
  | some tankPos =>
    let d := dist position tankPos
    if d < explosionBlastRadius then
      let damageRatio := jsMax 0 (1 - d / explosionBlastRadius)
      let damage := explosionMaxDamage * damageRatio
      if s.role = .host then
        let h := jsMax 0 (s.player1.health - damage)
        let sa := { s with player1 := { s.player1 with health := h } }
        if h ≤ 0 then handleLocalDeath sa else sa
      else
        if s.isMultiplayer && !s.isTestMode then
          sendMsg s (.damage damage "player1")
        else s
    else s

/-- The player2 block of game.js checkExplosionDamage. -/
def explosionDamagePlayer2 (dist : V3 → V3 → ℚ) (s : GameState)
    (position : V3) : GameState :=
  match s.player2Tank with
  | none => s
  | some tankPos =>
    let d := dist position tankPos
    if d < explosionBlastRadius then
      let damageRatio := jsMax 0 (1 - d / explosionBlastRadius)
      let damage := explosionMaxDamage * damageRatio
      if s.role = .client then
        let h := jsMax 0 (s.player2.health - damage)
        let sa := { s with player2 := { s.player2 with health := h } }
        if h ≤ 0 then handleLocalDeath sa else sa
      else
        if s.isMultiplayer && !s.isTestMode then
          sendMsg s (.damage damage "player2")
        else s
    else s

/-- The tree-destruction loop ending game.js checkExplosionDamage: it
walks collidables from the last index down and removes every tree
within explosionBlastRadius + 5, spawning wood particles and
broadcasting tree_destroyed.  Splicing at the visited index only moves
already-visited higher indices, so processing index i on the current
arrays matches the source loop. -/
def checkExplosionTrees (dist : V3 → V3 → ℚ) (position : V3) :
    ℕ → GameState → GameState
  | 0, s => s
  | i + 1, s =>
    let s1 :=
      match s.collidables[i]? with
      | none => s
      | some c =>
        if c.objType = "tree" ∧ dist position c.position < explosionBlastRadius + 5 then
          let sa := { s with
            particlesSpawnedAt := s.particlesSpawnedAt ++ [c.position],
            sceneObjs := s.sceneObjs.erase c,
            collidables := s.collidables.eraseIdx i,
            trees := s.trees.erase c }
          if sa.isMultiplayer && !sa.isTestMode then
            sendMsg sa (.treeDestroyed c.id)
          else sa
        else s
    checkExplosionTrees dist position i s1

/-- game.js checkExplosionDamage: local damage detection against both
tanks followed by the destructible-tree sweep. -/
def checkExplosionDamage (dist : V3 → V3 → ℚ) (s : GameState)
    (position : V3) : GameState :=
  let s1 := explosionDamagePlayer1 dist s position
  let s2 := explosionDamagePlayer2 dist s1 position
  checkExplosionTrees dist position s2.collidables.length s2

/-- game.js createExplosion: no-op until both explosion assets are
loaded; spawns the explosion sprite and sound, and runs local damage
detection only when isLocal is true. -/
def createExplosion (dist : V3 → V3 → ℚ) (s : GameState) (position : V3)
    (isLocal : Bool) : GameState :=
  if !s.assetsLoaded then s
  else
    let s1 := { s with explosions := s.explosions ++ [position] }
    if isLocal then checkExplosionDamage dist s1 position else s1

/-- The bullet object built by game.js spawnBullet. -/
def mkBullet (position direction : V3) (isLocal : Bool) : Bullet :=
  { position := position, lastPosition := position,
    velocity := (bulletSpeed * direction.1, bulletSpeed * direction.2.1,
      bulletSpeed * direction.2.2),
    age := 0, isLocal := isLocal }

/-- game.js spawnBullet: adds the bullet to the scene and the bullets
array. -/
def spawnBullet (s : GameState) (position direction : V3) (isLocal : Bool) :
    GameState :=
  { s with bullets := s.bullets ++ [mkBullet position direction isLocal] }

/-- game.js spawnRemoteBullet: a bullet announced by a bullet_spawn
envelope is spawned with isLocal = false. -/
def spawnRemoteBullet (s : GameState) (position direction : V3) : GameState :=
  spawnBullet s position direction false

/-- game.js removeBullet (splice at the known index). -/
def removeBullet (s : GameState) (i : ℕ) : GameState :=
  { s with bullets := s.bullets.eraseIdx i }

/-- The impact branch of game.js updateBullets: when the external
raycast reports an intersection at `point` for the bullet b at index
i, an explosion is created carrying that bullet's isLocal flag and the
bullet is removed. -/
def bulletImpact (dist : V3 → V3 → ℚ) (s : GameState) (b : Bullet) (i : ℕ)
    (point : V3) : GameState :=
  removeBullet (createExplosion dist s point b.isLocal) i

/-- game.js updateRemotePlayer: overwrite the latest remote snapshot
(last-write-wins); Date.now() is passed in as `now`. -/
def updateRemotePlayer (s : GameState) (now : ℕ) (d : PlayerUpdateData) :
    GameState :=
  match s.remoteTank with
  | none => s
  | some _ =>
    { s with remotePlayerState :=
      { position := d.position, rotation := d.rotation,
        headRotation := d.headRotation, turretRotation := d.turretRotation,
        velocity := d.velocity, lastUpdate := now } }

/-- game.js syncMapFromHost: overwrites the three decorationPositions
lists with the mapData of the host (absent fields become []) and
touches nothing else. -/
def syncMapFromHost (s : GameState) (mapData : MapData) : GameState :=
  { s with decorationPositions :=
    { warehouses := mapData.warehouses.getD [],
      trees := mapData.trees.getD [],
      barriers := mapData.barriers.getD [] } }

/-- game.js createTanks: spawns both tank groups at the fixed start
positions (the mesh loading is view-only). -/
def createTanks (s : GameState) : GameState :=
  { s with player1Tank := some ((-50 : ℚ), 30, 0),
           player2Tank := some ((50 : ℚ), 30, 0) }

/-- game.js startGame. -/
def startGame (s : GameState) : GameState :=
  let s1 := { s with gameStarted := true }
  let s2 := createTanks s1
  let s3 := { s2 with isRoundActive := true }
  if s3.isMultiplayer && !s3.isTestMode then sendMsg s3 (.other "ready") else s3

/-- The index acted on by the backwards loop of game.js
handleRemoteTreeDestruction: the largest index whose tree carries the
given userData.id (the loop runs from the end and breaks at the first
match it meets). -/
def lastTreeMatchIdx : List SceneObj → String → Option ℕ
  | [], _ => none
  | t :: ts, treeId =>
    match lastTreeMatchIdx ts treeId with
    | some j => some (j + 1)
    | none => if t.id = treeId then some 0 else none

/-- game.js handleRemoteTreeDestruction: removes the matched tree from
the scene and splices it out of trees, then computes
collidables.indexOf(trees[i]) AFTER the splice — trees[i] is by then
the following tree, or undefined when the matched tree was last, in
which case indexOf yields -1 and nothing is spliced from
collidables. -/
def handleRemoteTreeDestruction (s : GameState) (treeId : String) : GameState :=
  match lastTreeMatchIdx s.trees treeId with
  | none => s
  | some i =>
    match s.trees[i]? with
    | none => s
    | some matched =>
      let trees1 := s.trees.eraseIdx i
      let s1 := { s with sceneObjs := s.sceneObjs.erase matched, trees := trees1 }
      match trees1[i]? with
      | some c => { s1 with collidables := s1.collidables.erase c }
      | none => s1

/-- game.js handleNetworkMessage: the switch over message.type. -/
def handleNetworkMessage (s : GameState) (now : ℕ) : MsgData → GameState
  | .playerInfo username color =>
    match s.role with
    | .host => { s with player2 := { s.player2 with username := username, color := color } }
    | .client => { s with player1 := { s.player1 with username := username, color := color } }
  | .gameStart mode mapData =>
    let s1 := { s with gameMode := mode, winThreshold := getWinThreshold mode }
    let s2 :=
      match mapData with
      | some md => syncMapFromHost s1 md
      | none => s1
    startGame s2
  | .playerUpdate d => updateRemotePlayer s now d
  | .bulletSpawn position direction => spawnRemoteBullet s position direction
  | .damage d target => handleRemoteDamage s d target
  | .death => handleRemoteDeath s
  | .roundEnd => s
  | .treeDestroyed treeId => handleRemoteTreeDestruction s treeId
  | .other _ => s

/-- One externally-triggered event at a peer: an incoming envelope, or
a locally detected explosion (createExplosion with isLocal = true). -/
inductive GameEvent where
  | recv (now : ℕ) (m : MsgData)
  | localExplosion (position : V3)

/-- The effect of one event on the game state. -/
def step (dist : V3 → V3 → ℚ) (s : GameState) : GameEvent → GameState
  | .recv now m => handleNetworkMessage s now m
  | .localExplosion position => createExplosion dist s position true

/-- The health of the record the peer with role r owns. -/
def ownHealth (r : Role) (s : GameState) : ℚ :=
  match r with
  | .host => s.player1.health
  | .client => s.player2.health

/-- The health of the record the peer with role r does not own. -/
def otherHealth (r : Role) (s : GameState) : ℚ :=
  match r with
  | .host => s.player2.health
  | .client => s.player1.health

/-- The target id string a peer owns (host: player1). -/
def ownTargetId : Role → String
  | .host => "player1"
  | .client => "player2"

/-- The event is a damage envelope targeting the record this peer
owns. -/
def eventIsOwnDamage (r : Role) : GameEvent → Prop
  | .recv _ (.damage _ target) => target = ownTargetId r
  | _ => False

/-- The event is a locally detected explosion. -/
def eventIsLocalExplosion : GameEvent → Prop
  | .localExplosion _ => True
  | _ => False

/-- One observed death: the local player's own death (handleLocalDeath)
or a received death envelope (handleRemoteDeath). -/
inductive DeathEvent where
  | localDeath
  | remoteDeath

/-- Apply one death event. -/
def applyDeath (s : GameState) : DeathEvent → GameState
  | .localDeath => handleLocalDeath s
  | .remoteDeath => handleRemoteDeath s

/-- Apply a sequence of observed deaths. -/
def runDeaths (s : GameState) (l : List DeathEvent) : GameState :=
  l.foldl applyDeath s

/-- webrtc.js WebRTCManager connection state: the peerConnection and
dataChannel objects are reduced to presence flags, `status` is the
lobby status line.  DOM fields and copy buttons are view-only. -/
structure WebRTCManager where
  hasPeerConnection : Bool
  hasDataChannel : Bool
  role : Option Role
  isConnected : Bool
  status : String
deriving DecidableEq, Repr

/-- One serialized transport frame: the message object JSON.stringify
receives in webrtc.js send. -/
structure Envelope where
  type : String
  data : MsgData
  timestamp : ℕ
deriving DecidableEq, Repr

/-- webrtc.js WebRTCManager.send: when not connected or without a data
channel it warns and returns false, writing nothing; otherwise it
writes exactly one Envelope frame stamped with Date.now() (passed in
as `now`) and returns true.  (Its try/catch also returns false should
the transport-level dataChannel.send itself throw, an external
failure outside this model.) -/
def WebRTCManager.send (m : WebRTCManager) (type : String) (data : MsgData)
    (now : ℕ) : Bool × List Envelope :=
  if !m.isConnected || !m.hasDataChannel then (false, [])
  else (true, [{ type := type, data := data, timestamp := now }])

/-- webrtc.js dataChannel.onclose: mark the session disconnected and
emit the 'disconnected' event. -/
def dataChannelOnClose (m : WebRTCManager) : WebRTCManager × List String :=
  ({ m with isConnected := false }, ["disconnected"])

/-- The 'disconnected' listener registered by game.js
setupWebRTCListeners: it only logs; the game state is untouched. -/
def onDisconnectedGame (g : GameState) : GameState := g

/-- The whole effect of a mid-match data-channel close on one peer:
the manager's onclose handler, the emitted events, and the game's
'disconnected' listener. -/
def channelCloseStep (m : WebRTCManager) (g : GameState) :
    WebRTCManager × List String × GameState :=
  let p := dataChannelOnClose m
  (p.1, p.2, onDisconnectedGame g)

/-- A parsed signaling description; parsing is the external JSON.parse,
abstracted below as a String → Option SessionDesc argument (none
models a thrown SyntaxError). -/
structure SessionDesc where
  raw : String
deriving DecidableEq, Repr

/-- webrtc.js handleOfferSubmit (the Responder pastes the offer blob).
An empty trimmed input only re-prompts.  When JSON.parse throws, the
catch sets the invalid status and nothing else has happened: in the
source the parse is the first statement of the try block, before
createPeerConnection.  The some branch models the success path of the
async chain (peer connection created, answer produced and displayed);
its await rejections land in the same catch. -/
def handleOfferSubmit (parse : String → Option SessionDesc)
    (m : WebRTCManager) (input : String) : WebRTCManager :=
  let offerJSON := jsTrim input
  if offerJSON = "" then
    { m with status := "Please paste the Offer JSON from the host." }
  else
    match parse offerJSON with
    | none =>
      { m with status := "Invalid Offer JSON or connection failed. Please try again." }
    | some _ =>
      { m with hasPeerConnection := true,
               status := "Share the Answer JSON with the host and wait for connection..." }

/-- One possible behavior of the external JSON.parse for signaling
blobs: every input is rejected (as a non-JSON string such as
"not-json" is, with a SyntaxError). -/
def rejectAllParse : String → Option SessionDesc := fun _ => none

/-- Sample player record for concrete runs. -/
def samplePlayer (name color : String) : PlayerRecord :=
  { username := name, color := color, score := 0, health := 100 }

/-- Sample remote snapshot. -/
def sampleRemoteState : RemotePlayerState :=
  { position := (0, 0, 0), rotation := (0, 0, 0, 1), headRotation := 0,
    turretRotation := 0, velocity := (0, 0, 0), lastUpdate := 0 }

/-- Sample player_update payload. -/
def samplePUD : PlayerUpdateData :=
  { position := (3, 1, 4), rotation := (0, 0, 0, 1), headRotation := 1,
    turretRotation := 2, velocity := (1, 0, 0) }

/-- A concrete death sequence: the local player dies, then the remote
player, then the local player again. -/
def deathsThree : List DeathEvent :=
  [DeathEvent.localDeath, DeathEvent.remoteDeath, DeathEvent.localDeath]

/-- A connected mid-match multiplayer game state in BO3 mode. -/
def baseState (r : Role) : GameState :=
  { isMultiplayer := true, isTestMode := false, role := r,
    player1 := samplePlayer "alice" "red",
    player2 := samplePlayer "bobby" "blue",
    gameMode := "bo3", winThreshold := getWinThreshold "bo3",
    isRoundActive := true, isControlsLocked := false, gameStarted := true,
    cutscenePlaying := false, assetsLoaded := true,
    player1Tank := some ((-50 : ℚ), 30, 0),
    player2Tank := some ((50 : ℚ), 30, 0),
    trees := [], collidables := [], sceneObjs := [], bullets := [],
    explosions := [], particlesSpawnedAt := [],
    decorationPositions := { warehouses := [], trees := [], barriers := [] },
    remotePlayerState := sampleRemoteState, outbox := [] }

/-- The tree the client placed itself (its own random generateMap run)
under id tree_0, at x = 2. -/
def clientTreeObj : SceneObj :=
  { ref := 0, objType := "tree", id := "tree_0", position := (2, 0, 0) }

/-- A client state whose own generated map contains clientTreeObj. -/
def clientMapState : GameState :=
  { baseState .client with
    trees := [clientTreeObj],
    collidables := [clientTreeObj],
    sceneObjs := [clientTreeObj] }

/-- The placement the host generated for tree_0: at x = 1, differing
from the client's own random placement. -/
def hostTreePlacement : TreePlacement :=
  { id := "tree_0", x := 1, y := 0, z := 0, rotY := 0, scale := 1 }

/-- The mapData the host sends in its game_start envelope. -/
def hostMapData : MapData :=
  { warehouses := some [], trees := some [hostTreePlacement], barriers := some [] }

/-- Three distinct tree objects for the destruction scenarios. -/
def treeA : SceneObj :=
  { ref := 1, objType := "tree", id := "tree_0", position := (10, 0, 0) }

def treeB : SceneObj :=
  { ref := 2, objType := "tree", id := "tree_7", position := (20, 0, 0) }

def treeC : SceneObj :=
  { ref := 3, objType := "tree", id := "tree_9", position := (30, 0, 0) }

/-- A client state with three trees, all present in collidables and in
the scene. -/
def treesState : GameState :=
  { baseState .client with
    trees := [treeA, treeB, treeC],
    collidables := [treeA, treeB, treeC],
    sceneObjs := [treeA, treeB, treeC] }

/-- A manager mid-match: connected, channel open. -/
def midMatchManager : WebRTCManager :=
  { hasPeerConnection := true, hasDataChannel := true, role := some .host,
    isConnected := true, status := "" }

/-- The Responder's manager before pasting an offer: no transport yet. -/
def freshJoinManager : WebRTCManager :=
  { hasPeerConnection := false, hasDataChannel := false, role := some .client,
    isConnected := false, status := "Paste the Offer JSON below." }

/-! ### Helper lemmas: field preservation of the handlers -/

@[simp] lemma sendMsg_role (s : GameState) (m : MsgData) : (sendMsg s m).role = s.role := rfl

@[simp] lemma sendMsg_player1 (s : GameState) (m : MsgData) : (sendMsg s m).player1 = s.player1 := rfl

@[simp] lemma sendMsg_player2 (s : GameState) (m : MsgData) : (sendMsg s m).player2 = s.player2 := rfl

@[simp] lemma sendMsg_winThreshold (s : GameState) (m : MsgData) : (sendMsg s m).winThreshold = s.winThreshold := rfl

@[simp] lemma sendMsg_gameMode (s : GameState) (m : MsgData) : (sendMsg s m).gameMode = s.gameMode := rfl

@[simp] lemma sendMsg_cutscenePlaying (s : GameState) (m : MsgData) : (sendMsg s m).cutscenePlaying = s.cutscenePlaying := rfl

@[simp] lemma triggerFinalCutscene_role (s : GameState) : (triggerFinalCutscene s).role = s.role := rfl

@[simp] lemma triggerFinalCutscene_player1 (s : GameState) : (triggerFinalCutscene s).player1 = s.player1 := rfl

@[simp] lemma triggerFinalCutscene_player2 (s : GameState) : (triggerFinalCutscene s).player2 = s.player2 := rfl

@[simp] lemma triggerFinalCutscene_winThreshold (s : GameState) : (triggerFinalCutscene s).winThreshold = s.winThreshold := rfl

@[simp] lemma triggerFinalCutscene_gameMode (s : GameState) : (triggerFinalCutscene s).gameMode = s.gameMode := rfl

@[simp] lemma triggerFinalCutscene_cutscenePlaying (s : GameState) : (triggerFinalCutscene s).cutscenePlaying = true := rfl

@[simp] lemma checkWinCondition_role (s : GameState) : (checkWinCondition s).role = s.role := by
  unfold checkWinCondition
  split_ifs <;> rfl

@[simp] lemma checkWinCondition_player1 (s : GameState) : (checkWinCondition s).player1 = s.player1 := by
  unfold checkWinCondition
  split_ifs <;> rfl

@[simp] lemma checkWinCondition_player2 (s : GameState) : (checkWinCondition s).player2 = s.player2 := by
  unfold checkWinCondition
  split_ifs <;> rfl

@[simp] lemma checkWinCondition_winThreshold (s : GameState) : (checkWinCondition s).winThreshold = s.winThreshold := by
  unfold checkWinCondition
  split_ifs <;> rfl

@[simp] lemma checkWinCondition_gameMode (s : GameState) : (checkWinCondition s).gameMode = s.gameMode := by
  unfold checkWinCondition
  split_ifs <;> rfl

lemma checkWinCondition_cutscene_iff (s : GameState) :
    (checkWinCondition s).cutscenePlaying = true ↔
      (s.cutscenePlaying = true ∨ s.winThreshold ≤ (s.localPlayer.score : ℕ∞) ∨
        s.winThreshold ≤ (s.remotePlayer.score : ℕ∞)) := by
  unfold checkWinCondition
  split_ifs <;> simp_all

@[simp] lemma modifyRemote_role (s : GameState) (f : PlayerRecord → PlayerRecord) :
    (s.modifyRemote f).role = s.role := by
  unfold GameState.modifyRemote
  cases s.role <;> rfl

@[simp] lemma modifyRemote_winThreshold (s : GameState) (f : PlayerRecord → PlayerRecord) :
    (s.modifyRemote f).winThreshold = s.winThreshold := by
  unfold GameState.modifyRemote
  cases s.role <;> rfl

@[simp] lemma modifyRemote_gameMode (s : GameState) (f : PlayerRecord → PlayerRecord) :
    (s.modifyRemote f).gameMode = s.gameMode := by
  unfold GameState.modifyRemote
  cases s.role <;> rfl

@[simp] lemma modifyRemote_cutscenePlaying (s : GameState) (f : PlayerRecord → PlayerRecord) :
    (s.modifyRemote f).cutscenePlaying = s.cutscenePlaying := by
  unfold GameState.modifyRemote
  cases s.role <;> rfl

@[simp] lemma modifyLocal_role (s : GameState) (f : PlayerRecord → PlayerRecord) :
    (s.modifyLocal f).role = s.role := by
  unfold GameState.modifyLocal
  cases s.role <;> rfl

@[simp] lemma modifyLocal_winThreshold (s : GameState) (f : PlayerRecord → PlayerRecord) :
    (s.modifyLocal f).winThreshold = s.winThreshold := by
  unfold GameState.modifyLocal
  cases s.role <;> rfl

@[simp] lemma modifyLocal_gameMode (s : GameState) (f : PlayerRecord → PlayerRecord) :
    (s.modifyLocal f).gameMode = s.gameMode := by
  unfold GameState.modifyLocal
  cases s.role <;> rfl

@[simp] lemma modifyLocal_cutscenePlaying (s : GameState) (f : PlayerRecord → PlayerRecord) :
    (s.modifyLocal f).cutscenePlaying = s.cutscenePlaying := by
  unfold GameState.modifyLocal
  cases s.role <;> rfl

lemma modifyRemote_health (s : GameState) (f : PlayerRecord → PlayerRecord)
    (hf : ∀ p, (f p).health = p.health) :
    (s.modifyRemote f).player1.health = s.player1.health ∧
      (s.modifyRemote f).player2.health = s.player2.health := by
  unfold GameState.modifyRemote
  cases s.role <;> simp [hf]

lemma modifyLocal_health (s : GameState) (f : PlayerRecord → PlayerRecord)
    (hf : ∀ p, (f p).health = p.health) :
    (s.modifyLocal f).player1.health = s.player1.health ∧
      (s.modifyLocal f).player2.health = s.player2.health := by
  unfold GameState.modifyLocal
  cases s.role <;> simp [hf]

@[simp] lemma handleLocalDeath_role (s : GameState) : (handleLocalDeath s).role = s.role := by
  unfold handleLocalDeath
  split_ifs <;> simp

@[simp] lemma handleLocalDeath_winThreshold (s : GameState) :
    (handleLocalDeath s).winThreshold = s.winThreshold := by
  unfold handleLocalDeath
  split_ifs <;> simp

@[simp] lemma handleLocalDeath_gameMode (s : GameState) :
    (handleLocalDeath s).gameMode = s.gameMode := by
  unfold handleLocalDeath
  split_ifs <;> simp

@[simp] lemma handleLocalDeath_player1_health (s : GameState) :
    (handleLocalDeath s).player1.health = s.player1.health := by
  unfold handleLocalDeath GameState.modifyRemote sendMsg
  split_ifs <;> cases h : s.role <;> simp [h]

@[simp] lemma handleLocalDeath_player2_health (s : GameState) :
    (handleLocalDeath s).player2.health = s.player2.health := by
  unfold handleLocalDeath GameState.modifyRemote sendMsg
  split_ifs <;> cases h : s.role <;> simp [h]

@[simp] lemma handleRemoteDeath_role (s : GameState) : (handleRemoteDeath s).role = s.role := by
  unfold handleRemoteDeath
  simp

@[simp] lemma handleRemoteDeath_player1_health (s : GameState) :
    (handleRemoteDeath s).player1.health = s.player1.health := by
  unfold handleRemoteDeath GameState.modifyLocal
  cases h : s.role <;> simp [h]

@[simp] lemma handleRemoteDeath_player2_health (s : GameState) :
    (handleRemoteDeath s).player2.health = s.player2.health := by
  unfold handleRemoteDeath GameState.modifyLocal
  cases h : s.role <;> simp [h]

lemma handleRemoteDamage_eq_of_not_own (s : GameState) (d : ℚ) (target : String)
    (h1 : ¬(target = "player1" ∧ s.role = .host))
    (h2 : ¬(target = "player2" ∧ s.role = .client)) :
    handleRemoteDamage s d target = s := by
  unfold handleRemoteDamage
  rw [if_neg h1, if_neg h2]

lemma handleRemoteDamage_player2_health_host (s : GameState) (d : ℚ) (target : String)
    (hr : s.role = .host) :
    (handleRemoteDamage s d target).player2.health = s.player2.health := by
  simp only [handleRemoteDamage]
  split_ifs with h1 h2 h3 <;> simp_all

lemma handleRemoteDamage_player1_health_client (s : GameState) (d : ℚ) (target : String)
    (hr : s.role = .client) :
    (handleRemoteDamage s d target).player1.health = s.player1.health := by
  simp only [handleRemoteDamage]
  split_ifs with h1 h2 h3 <;> simp_all

@[simp] lemma handleRemoteDamage_role (s : GameState) (d : ℚ) (target : String) :
    (handleRemoteDamage s d target).role = s.role := by
  simp only [handleRemoteDamage]
  split_ifs <;> simp

@[simp] lemma explosionDamagePlayer1_role (dist : V3 → V3 → ℚ) (s : GameState) (position : V3) :
    (explosionDamagePlayer1 dist s position).role = s.role := by
  simp only [explosionDamagePlayer1]
  cases h : s.player1Tank <;> simp only [h] <;> split_ifs <;> simp

@[simp] lemma explosionDamagePlayer2_role (dist : V3 → V3 → ℚ) (s : GameState) (position : V3) :
    (explosionDamagePlayer2 dist s position).role = s.role := by
  simp only [explosionDamagePlayer2]
  cases h : s.player2Tank <;> simp only [h] <;> split_ifs <;> simp

@[simp] lemma explosionDamagePlayer1_player2_health (dist : V3 → V3 → ℚ) (s : GameState)
    (position : V3) :
    (explosionDamagePlayer1 dist s position).player2.health = s.player2.health := by
  simp only [explosionDamagePlayer1]
  cases h : s.player1Tank <;> simp only [h] <;> split_ifs <;> simp

@[simp] lemma explosionDamagePlayer2_player1_health (dist : V3 → V3 → ℚ) (s : GameState)
    (position : V3) :
    (explosionDamagePlayer2 dist s position).player1.health = s.player1.health := by
  simp only [explosionDamagePlayer2]
  cases h : s.player2Tank <;> simp only [h] <;> split_ifs <;> simp

lemma explosionDamagePlayer1_player1_health_client (dist : V3 → V3 → ℚ) (s : GameState)
    (position : V3) (hr : s.role = .client) :
    (explosionDamagePlayer1 dist s position).player1.health = s.player1.health := by
  simp only [explosionDamagePlayer1]
  cases h : s.player1Tank <;> simp only [h] <;> split_ifs <;> simp_all

lemma explosionDamagePlayer2_player2_health_host (dist : V3 → V3 → ℚ) (s : GameState)
    (position : V3) (hr : s.role = .host) :
    (explosionDamagePlayer2 dist s position).player2.health = s.player2.health := by
  simp only [explosionDamagePlayer2]
  cases h : s.player2Tank <;> simp only [h] <;> split_ifs <;> simp_all

lemma checkExplosionTrees_players (dist : V3 → V3 → ℚ) (position : V3) :
    ∀ (n : ℕ) (s : GameState),
      (checkExplosionTrees dist position n s).player1 = s.player1 ∧
      (checkExplosionTrees dist position n s).player2 = s.player2 ∧
      (checkExplosionTrees dist position n s).role = s.role := by
  intro n
  induction n with
  | zero => intro s; exact ⟨rfl, rfl, rfl⟩
  | succ i ih =>
    intro s
    simp only [checkExplosionTrees]
    cases h : s.collidables[i]? with
    | none => simpa [h] using ih s
    | some c =>
      simp only [h]
      split_ifs with hc hm
      · have := ih { s with
          particlesSpawnedAt := s.particlesSpawnedAt ++ [c.position],
          sceneObjs := s.sceneObjs.erase c,
          collidables := s.collidables.eraseIdx i,
          trees := s.trees.erase c,
          outbox := s.outbox ++ [MsgData.treeDestroyed c.id] }
        simpa [sendMsg] using this
      · have := ih { s with
          particlesSpawnedAt := s.particlesSpawnedAt ++ [c.position],
          sceneObjs := s.sceneObjs.erase c,
          collidables := s.collidables.eraseIdx i,
          trees := s.trees.erase c }
        simpa using this
      · exact ih s

lemma checkExplosionDamage_otherHealth (dist : V3 → V3 → ℚ) (s : GameState) (position : V3) :
    otherHealth s.role (checkExplosionDamage dist s position) = otherHealth s.role s := by
  unfold checkExplosionDamage otherHealth
  cases hr : s.role with
  | host =>
    have h1 : (explosionDamagePlayer1 dist s position).role = Role.host := by simp [hr]
    have e2 := explosionDamagePlayer2_player2_health_host dist
      (explosionDamagePlayer1 dist s position) position h1
    have e3 := (checkExplosionTrees_players dist position
      ((explosionDamagePlayer2 dist (explosionDamagePlayer1 dist s position) position).collidables.length)
      (explosionDamagePlayer2 dist (explosionDamagePlayer1 dist s position) position)).2.1
    simp [e3, e2]
  | client =>
    have h1 : (explosionDamagePlayer1 dist s position).role = Role.client := by simp [hr]
    have e1 := explosionDamagePlayer1_player1_health_client dist s position hr
    have e2 := explosionDamagePlayer2_player1_health dist
      (explosionDamagePlayer1 dist s position) position
    have e3 := (checkExplosionTrees_players dist position
      ((explosionDamagePlayer2 dist (explosionDamagePlayer1 dist s position) position).collidables.length)
      (explosionDamagePlayer2 dist (explosionDamagePlayer1 dist s position) position)).1
    simp [e3, e2, e1]

@[simp] lemma updateRemotePlayer_player1 (s : GameState) (now : ℕ) (d : PlayerUpdateData) :
    (updateRemotePlayer s now d).player1 = s.player1 := by
  simp only [updateRemotePlayer]
  cases h : s.remoteTank <;> simp [h]

@[simp] lemma updateRemotePlayer_player2 (s : GameState) (now : ℕ) (d : PlayerUpdateData) :
    (updateRemotePlayer s now d).player2 = s.player2 := by
  simp only [updateRemotePlayer]
  cases h : s.remoteTank <;> simp [h]

@[simp] lemma updateRemotePlayer_role (s : GameState) (now : ℕ) (d : PlayerUpdateData) :
    (updateRemotePlayer s now d).role = s.role := by
  simp only [updateRemotePlayer]
  cases h : s.remoteTank <;> simp [h]

@[simp] lemma startGame_player1 (s : GameState) : (startGame s).player1 = s.player1 := by
  simp only [startGame, createTanks, sendMsg]
  split_ifs <;> rfl

@[simp] lemma startGame_player2 (s : GameState) : (startGame s).player2 = s.player2 := by
  simp only [startGame, createTanks, sendMsg]
  split_ifs <;> rfl

@[simp] lemma startGame_role (s : GameState) : (startGame s).role = s.role := by
  simp only [startGame, createTanks, sendMsg]
  split_ifs <;> rfl

@[simp] lemma syncMapFromHost_player1 (s : GameState) (md : MapData) :
    (syncMapFromHost s md).player1 = s.player1 := rfl

@[simp] lemma syncMapFromHost_player2 (s : GameState) (md : MapData) :
    (syncMapFromHost s md).player2 = s.player2 := rfl

@[simp] lemma syncMapFromHost_role (s : GameState) (md : MapData) :
    (syncMapFromHost s md).role = s.role := rfl

@[simp] lemma handleRemoteTreeDestruction_player1 (s : GameState) (treeId : String) :
    (handleRemoteTreeDestruction s treeId).player1 = s.player1 := by
  rcases h1 : lastTreeMatchIdx s.trees treeId with _ | i
  · simp [handleRemoteTreeDestruction, h1]
  · rcases h2 : s.trees[i]? with _ | matched
    · simp [handleRemoteTreeDestruction, h1, h2]
    · rcases h3 : (s.trees.eraseIdx i)[i]? with _ | c
      · simp [handleRemoteTreeDestruction, h1, h2, h3]
      · simp [handleRemoteTreeDestruction, h1, h2, h3]

@[simp] lemma handleRemoteTreeDestruction_player2 (s : GameState) (treeId : String) :
    (handleRemoteTreeDestruction s treeId).player2 = s.player2 := by
  rcases h1 : lastTreeMatchIdx s.trees treeId with _ | i
  · simp [handleRemoteTreeDestruction, h1]
  · rcases h2 : s.trees[i]? with _ | matched
    · simp [handleRemoteTreeDestruction, h1, h2]
    · rcases h3 : (s.trees.eraseIdx i)[i]? with _ | c
      · simp [handleRemoteTreeDestruction, h1, h2, h3]
      · simp [handleRemoteTreeDestruction, h1, h2, h3]

@[simp] lemma handleRemoteTreeDestruction_role (s : GameState) (treeId : String) :
    (handleRemoteTreeDestruction s treeId).role = s.role := by
  rcases h1 : lastTreeMatchIdx s.trees treeId with _ | i
  · simp [handleRemoteTreeDestruction, h1]
  · rcases h2 : s.trees[i]? with _ | matched
    · simp [handleRemoteTreeDestruction, h1, h2]
    · rcases h3 : (s.trees.eraseIdx i)[i]? with _ | c
      · simp [handleRemoteTreeDestruction, h1, h2, h3]
      · simp [handleRemoteTreeDestruction, h1, h2, h3]

lemma checkExplosionDamage_role (dist : V3 → V3 → ℚ) (s : GameState) (position : V3) :
    (checkExplosionDamage dist s position).role = s.role := by
  simp only [checkExplosionDamage]
  rw [(checkExplosionTrees_players dist position _ _).2.2]
  simp

@[simp] lemma createExplosion_role (dist : V3 → V3 → ℚ) (s : GameState) (position : V3)
    (isLocal : Bool) :
    (createExplosion dist s position isLocal).role = s.role := by
  simp only [createExplosion]
  split_ifs <;> simp [checkExplosionDamage_role]

lemma ownHealth_eq_of (r : Role) (s t : GameState)
    (h1 : t.player1.health = s.player1.health)
    (h2 : t.player2.health = s.player2.health) :
    ownHealth r t = ownHealth r s := by
  cases r <;> simp [ownHealth, h1, h2]

lemma otherHealth_eq_of (r : Role) (s t : GameState)
    (h1 : t.player1.health = s.player1.health)
    (h2 : t.player2.health = s.player2.health) :
    otherHealth r t = otherHealth r s := by
  cases r <;> simp [otherHealth, h1, h2]

lemma handleNetworkMessage_role (s : GameState) (now : ℕ) (m : MsgData) :
    (handleNetworkMessage s now m).role = s.role := by
  cases m with
  | playerInfo u c =>
    simp only [handleNetworkMessage]
    cases h : s.role <;> simp [h]
  | gameStart mode md =>
    simp only [handleNetworkMessage]
    cases md <;> simp
  | playerUpdate d => simp [handleNetworkMessage]
  | bulletSpawn p q => rfl
  | damage d t => simp [handleNetworkMessage]
  | death => simp [handleNetworkMessage]
  | roundEnd => rfl
  | treeDestroyed tid => simp [handleNetworkMessage]
  | other t => rfl

lemma step_role (dist : V3 → V3 → ℚ) (s : GameState) (e : GameEvent) :
    (step dist s e).role = s.role := by
  cases e with
  | recv now m => exact handleNetworkMessage_role s now m
  | localExplosion p => simp [step]

lemma step_otherHealth (dist : V3 → V3 → ℚ) (s : GameState) (e : GameEvent) :
    otherHealth s.role (step dist s e) = otherHealth s.role s := by
  cases e with
  | localExplosion p =>
    simp only [step, createExplosion]
    split_ifs with ha
    · rfl
    · have h := checkExplosionDamage_otherHealth dist
        { s with explosions := s.explosions ++ [p] } p
      exact h.trans (otherHealth_eq_of _ _ _ rfl rfl)
  | recv now m =>
    cases m with
    | playerInfo u c =>
      cases hr : s.role <;>
        exact otherHealth_eq_of _ _ _ (by simp [step, handleNetworkMessage, hr])
          (by simp [step, handleNetworkMessage, hr])
    | gameStart mode md =>
      refine otherHealth_eq_of _ _ _ ?_ ?_ <;> cases md <;>
        simp [step, handleNetworkMessage]
    | playerUpdate d =>
      exact otherHealth_eq_of _ _ _ (by simp [step, handleNetworkMessage])
        (by simp [step, handleNetworkMessage])
    | bulletSpawn p q =>
      exact otherHealth_eq_of _ _ _ rfl rfl
    | damage d target =>
      cases hr : s.role with
      | host =>
        simp only [step, handleNetworkMessage, otherHealth]
        exact handleRemoteDamage_player2_health_host s d target hr
      | client =>
        simp only [step, handleNetworkMessage, otherHealth]
        exact handleRemoteDamage_player1_health_client s d target hr
    | death =>
      exact otherHealth_eq_of _ _ _ (by simp [step, handleNetworkMessage])
        (by simp [step, handleNetworkMessage])
    | roundEnd => exact otherHealth_eq_of _ _ _ rfl rfl
    | treeDestroyed tid =>
      exact otherHealth_eq_of _ _ _ (by simp [step, handleNetworkMessage])
        (by simp [step, handleNetworkMessage])
    | other t => exact otherHealth_eq_of _ _ _ rfl rfl

lemma step_ownHealth (dist : V3 → V3 → ℚ) (s : GameState) (e : GameEvent)
    (h1 : ¬ eventIsOwnDamage s.role e) (h2 : ¬ eventIsLocalExplosion e) :
    ownHealth s.role (step dist s e) = ownHealth s.role s := by
  cases e with
  | localExplosion p => exact absurd trivial h2
  | recv now m =>
    cases m with
    | playerInfo u c =>
      cases hr : s.role <;>
        exact ownHealth_eq_of _ _ _ (by simp [step, handleNetworkMessage, hr])
          (by simp [step, handleNetworkMessage, hr])
    | gameStart mode md =>
      refine ownHealth_eq_of _ _ _ ?_ ?_ <;> cases md <;>
        simp [step, handleNetworkMessage]
    | playerUpdate d =>
      exact ownHealth_eq_of _ _ _ (by simp [step, handleNetworkMessage])
        (by simp [step, handleNetworkMessage])
    | bulletSpawn p q =>
      exact ownHealth_eq_of _ _ _ rfl rfl
    | damage d target =>
      have ht : ¬ target = ownTargetId s.role := h1
      have heq : handleRemoteDamage s d target = s := by
        apply handleRemoteDamage_eq_of_not_own
        · rintro ⟨rfl, hr⟩
          exact ht (by rw [hr]; rfl)
        · rintro ⟨rfl, hr⟩
          exact ht (by rw [hr]; rfl)
      simp only [step, handleNetworkMessage, heq]
    | death =>
      exact ownHealth_eq_of _ _ _ (by simp [step, handleNetworkMessage])
        (by simp [step, handleNetworkMessage])
    | roundEnd => exact ownHealth_eq_of _ _ _ rfl rfl
    | treeDestroyed tid =>
      exact ownHealth_eq_of _ _ _ (by simp [step, handleNetworkMessage])
        (by simp [step, handleNetworkMessage])
    | other t => exact ownHealth_eq_of _ _ _ rfl rfl

/-- C1: Authority invariant.  Over any sequence of received envelopes
and locally detected explosions, the health of the record the peer
does not own never changes at that peer, and the peer's own health is
unchanged whenever no event in the sequence is a damage envelope
targeting its own record (player1 for the host, player2 for the
client) and no event is a local explosion detection
(checkExplosionDamage).  In particular player_update and every other
message type never change any health field. -/
theorem authority_invariant (dist : V3 → V3 → ℚ) (s : GameState)
    (events : List GameEvent) :
    otherHealth s.role (events.foldl (step dist) s) = otherHealth s.role s ∧
    ((∀ e ∈ events, ¬ eventIsOwnDamage s.role e ∧ ¬ eventIsLocalExplosion e) →
      ownHealth s.role (events.foldl (step dist) s) = ownHealth s.role s) := by
  induction events generalizing s with
  | nil => exact ⟨rfl, fun _ => rfl⟩
  | cons e es ih =>
    have hrole : (step dist s e).role = s.role := step_role dist s e
    have ihs := ih (step dist s e)
    rw [hrole] at ihs
    constructor
    · exact ihs.1.trans (step_otherHealth dist s e)
    · intro hall
      have h0 := hall e (List.mem_cons_self e es)
      have hrest : ∀ e2 ∈ es, ¬ eventIsOwnDamage s.role e2 ∧ ¬ eventIsLocalExplosion e2 :=
        fun e2 he2 => hall e2 (List.mem_cons_of_mem e he2)
      exact (ihs.2 hrest).trans (step_ownHealth dist s e h0.1 h0.2)

/-- Witness for C1 at a concrete input: a host processing a
player_update envelope keeps both health fields unchanged. -/
theorem authority_invariant_witness :
    otherHealth (baseState Role.host).role
        ([GameEvent.recv 0 (.playerUpdate samplePUD)].foldl
          (step (fun _ _ => 0)) (baseState .host)) =
      otherHealth (baseState Role.host).role (baseState .host) ∧
    ownHealth (baseState Role.host).role
        ([GameEvent.recv 0 (.playerUpdate samplePUD)].foldl
          (step (fun _ _ => 0)) (baseState .host)) =
      ownHealth (baseState Role.host).role (baseState .host) := by
  have h := authority_invariant (fun _ _ => 0) (baseState .host)
    [GameEvent.recv 0 (.playerUpdate samplePUD)]
  refine ⟨h.1, h.2 ?_⟩
  intro e he
  simp only [List.mem_singleton] at he
  subst he
  exact ⟨by simp [eventIsOwnDamage], by simp [eventIsLocalExplosion]⟩

lemma getWinThreshold_bo3 : getWinThreshold "bo3" = 2 := rfl

lemma getWinThreshold_bo5 : getWinThreshold "bo5" = 3 := rfl

lemma getWinThreshold_infinite : getWinThreshold "infinite" = ⊤ := rfl

lemma getWinThreshold_ne_zero (mode : String) : getWinThreshold mode ≠ 0 := by
  unfold getWinThreshold
  split_ifs <;> decide

lemma applyDeath_spec (s : GameState) (e : DeathEvent) :
    (applyDeath s e).role = s.role ∧
    (applyDeath s e).winThreshold = s.winThreshold ∧
    (applyDeath s e).gameMode = s.gameMode ∧
    s.player1.score ≤ (applyDeath s e).player1.score ∧
    s.player2.score ≤ (applyDeath s e).player2.score ∧
    (applyDeath s e).player1.score + (applyDeath s e).player2.score
      = s.player1.score + s.player2.score + 1 ∧
    ((applyDeath s e).cutscenePlaying = true ↔
      (s.cutscenePlaying = true ∨
        s.winThreshold ≤ ((applyDeath s e).player1.score : ℕ∞) ∨
        s.winThreshold ≤ ((applyDeath s e).player2.score : ℕ∞))) := by
  cases e with
  | localDeath =>
    simp only [applyDeath, handleLocalDeath, sendMsg]
    split_ifs with hm <;>
      cases hr : s.role <;>
        simp only [GameState.modifyRemote, hr] <;>
          refine ⟨by simp, by simp, by simp, by simp, by simp, by simp <;> omega, ?_⟩ <;>
            rw [checkWinCondition_cutscene_iff] <;>
              simp [GameState.localPlayer, GameState.remotePlayer, hr] <;> tauto
  | remoteDeath =>
    simp only [applyDeath, handleRemoteDeath]
    cases hr : s.role <;>
      simp only [GameState.modifyLocal, hr] <;>
        refine ⟨by simp, by simp, by simp, by simp, by simp, by simp <;> omega, ?_⟩ <;>
          rw [checkWinCondition_cutscene_iff] <;>
            simp [GameState.localPlayer, GameState.remotePlayer, hr] <;> tauto

lemma score_cast_mono {a b : ℕ} (h : a ≤ b) : (a : ℕ∞) ≤ (b : ℕ∞) := by
  exact_mod_cast h

lemma runDeaths_spec (l : List DeathEvent) :
    ∀ s : GameState,
      (runDeaths s l).role = s.role ∧
      (runDeaths s l).winThreshold = s.winThreshold ∧
      (runDeaths s l).gameMode = s.gameMode ∧
      (runDeaths s l).player1.score + (runDeaths s l).player2.score
        = s.player1.score + s.player2.score + l.length ∧
      ((s.cutscenePlaying = true ↔
          (s.winThreshold ≤ (s.player1.score : ℕ∞) ∨
            s.winThreshold ≤ (s.player2.score : ℕ∞))) →
        ((runDeaths s l).cutscenePlaying = true ↔
          ((runDeaths s l).winThreshold ≤ ((runDeaths s l).player1.score : ℕ∞) ∨
            (runDeaths s l).winThreshold ≤ ((runDeaths s l).player2.score : ℕ∞)))) := by
  induction l with
  | nil =>
    intro s
    exact ⟨rfl, rfl, rfl, by simp [runDeaths], fun h => by simpa [runDeaths] using h⟩
  | cons e es ih =>
    intro s
    have hs := applyDeath_spec s e
    obtain ⟨hsrole, hsthr, hsmode, hsm1, hsm2, hssum, hsiff⟩ := hs
    have ihs := ih (applyDeath s e)
    obtain ⟨ihrole, ihthr, ihmode, ihsum, ihflag⟩ := ihs
    refine ⟨ihrole.trans hsrole, ihthr.trans hsthr, ihmode.trans hsmode, by
      have hlen : (e :: es).length = es.length + 1 := rfl
      show (runDeaths (applyDeath s e) es).player1.score +
        (runDeaths (applyDeath s e) es).player2.score = _
      omega, ?_⟩
    intro hinv
    have hinv2 : (applyDeath s e).cutscenePlaying = true ↔
        ((applyDeath s e).winThreshold ≤ ((applyDeath s e).player1.score : ℕ∞) ∨
          (applyDeath s e).winThreshold ≤ ((applyDeath s e).player2.score : ℕ∞)) := by
      rw [hsiff, hsthr, hinv]
      constructor
      · rintro (h | h | h)
        · rcases h with h | h
          · exact Or.inl (h.trans (score_cast_mono hsm1))
          · exact Or.inr (h.trans (score_cast_mono hsm2))
        · exact Or.inl h
        · exact Or.inr h
      · rintro (h | h)
        · exact Or.inr (Or.inl h)
        · exact Or.inr (Or.inr h)
    exact ihflag hinv2

/-- C2: Score invariant.  Starting from a fresh scoreboard with the
win threshold derived from the game mode, every death event
(handleLocalDeath or handleRemoteDeath) increments exactly one score
by 1, so player1.score + player2.score equals the number of observed
deaths; the final cutscene has been triggered if and only if some
player's score has reached the win threshold; in Infinite mode the
threshold is ⊤ so the cutscene never triggers; and BO3 maps to
threshold 2, BO5 to 3. -/
theorem score_invariant (s : GameState) (l : List DeathEvent)
    (h1 : s.player1.score = 0) (h2 : s.player2.score = 0)
    (hc : s.cutscenePlaying = false)
    (hw : s.winThreshold = getWinThreshold s.gameMode) :
    (runDeaths s l).player1.score + (runDeaths s l).player2.score = l.length ∧
    ((runDeaths s l).cutscenePlaying = true ↔
      ((runDeaths s l).winThreshold ≤ ((runDeaths s l).player1.score : ℕ∞) ∨
        (runDeaths s l).winThreshold ≤ ((runDeaths s l).player2.score : ℕ∞))) ∧
    (s.gameMode = "infinite" → (runDeaths s l).cutscenePlaying = false) ∧
    getWinThreshold "bo3" = 2 ∧ getWinThreshold "bo5" = 3 := by
  obtain ⟨hrole, hthr, hmode, hsum, hflag⟩ := runDeaths_spec l s
  have hinv0 : s.cutscenePlaying = true ↔
      (s.winThreshold ≤ (s.player1.score : ℕ∞) ∨
        s.winThreshold ≤ (s.player2.score : ℕ∞)) := by
    rw [hc, h1, h2, hw]
    simp [getWinThreshold_ne_zero]
  have hiff := hflag hinv0
  refine ⟨by omega, hiff, ?_, rfl, rfl⟩
  intro hm
  have htop : (runDeaths s l).winThreshold = ⊤ := by
    rw [hthr, hw, hm, getWinThreshold_infinite]
  rw [htop] at hiff
  simp only [top_le_iff] at hiff
  have hne1 : ((runDeaths s l).player1.score : ℕ∞) ≠ ⊤ := by
    exact_mod_cast ENat.coe_ne_top _
  have hne2 : ((runDeaths s l).player2.score : ℕ∞) ≠ ⊤ := by
    exact_mod_cast ENat.coe_ne_top _
  rcases hb : (runDeaths s l).cutscenePlaying with _ | _
  · rfl
  · rcases hiff.mp hb with h | h
    · exact absurd h hne1
    · exact absurd h hne2

/-- Witness for C2 at a concrete input: a BO3 host observing three
deaths ends with scores summing to 3 and the cutscene triggered
(player2 reached the threshold of 2). -/
theorem score_invariant_witness :
    (runDeaths (baseState .host) deathsThree).player1.score +
      (runDeaths (baseState .host) deathsThree).player2.score = 3 ∧
    (runDeaths (baseState .host) deathsThree).cutscenePlaying = true := by
  have h := score_invariant (baseState .host) deathsThree rfl rfl rfl rfl
  refine ⟨h.1, ?_⟩
  rw [h.2.1]
  exact Or.inr (by decide)

lemma jsMax_floor_nonpos {h d : ℚ} (hle : h ≤ d) : jsMax 0 (h - d) ≤ 0 := by
  simp only [jsMax]
  split_ifs <;> linarith

lemma jsMax_floor_pos {h d : ℚ} (hlt : d < h) : ¬ jsMax 0 (h - d) ≤ 0 := by
  simp only [jsMax]
  split_ifs <;> linarith

lemma handleLocalDeath_player1_score_client (s : GameState) (hr : s.role = .client) :
    (handleLocalDeath s).player1.score = s.player1.score + 1 := by
  simp only [handleLocalDeath]
  split_ifs <;> simp [GameState.modifyRemote, sendMsg, hr]

lemma handleRemoteDamage_client_eq (s : GameState) (d : ℚ) (hr : s.role = .client) :
    handleRemoteDamage s d "player2" =
      (if jsMax 0 (s.player2.health - d) ≤ 0 then
        handleLocalDeath
          { s with player2 := { s.player2 with health := jsMax 0 (s.player2.health - d) } }
      else
        { s with player2 := { s.player2 with health := jsMax 0 (s.player2.health - d) } }) := by
  have hc1 : ¬("player2" = "player1" ∧ s.role = Role.host) := by
    rintro ⟨h, _⟩
    exact absurd h (by decide)
  have hc2 : ("player2" = "player2" ∧ s.role = Role.client) := ⟨rfl, hr⟩
  unfold handleRemoteDamage
  rw [if_neg hc1, if_pos hc2]

/-- C3: a damage envelope with target player2 is applied only by the
client (the owner of player2): the client floors the new health at 0
via Math.max and, exactly when the incoming damage consumes all
remaining health (resulting health ≤ 0), runs the local death handler
(observable as the opponent player1 being awarded the point); a host
receiving the same envelope changes nothing at all. -/
theorem damage_envelope_applied_by_owner (s : GameState) (d : ℚ) :
    (s.role = .client →
      (handleRemoteDamage s d "player2").player2.health
          = jsMax 0 (s.player2.health - d) ∧
      (s.player2.health ≤ d →
        (handleRemoteDamage s d "player2").player1.score = s.player1.score + 1) ∧
      (d < s.player2.health →
        (handleRemoteDamage s d "player2").player1.score = s.player1.score)) ∧
    (s.role = .host → handleRemoteDamage s d "player2" = s) := by
  constructor
  · intro hr
    refine ⟨?_, ?_, ?_⟩
    · rw [handleRemoteDamage_client_eq s d hr]
      split_ifs <;> simp
    · intro hd
      rw [handleRemoteDamage_client_eq s d hr, if_pos (jsMax_floor_nonpos hd)]
      exact handleLocalDeath_player1_score_client _ hr
    · intro hd
      rw [handleRemoteDamage_client_eq s d hr, if_neg (jsMax_floor_pos hd)]
  · intro hr
    apply handleRemoteDamage_eq_of_not_own
    · rintro ⟨h, _⟩
      exact absurd h (by decide)
    · rintro ⟨_, h⟩
      rw [hr] at h
      exact absurd h (by decide)

/-- Witness for C3 at the concrete scenario input: a client at
player2.health = 100 receiving damage 30 against player2 ends at 70
with no score change, while a host receiving the same envelope is
completely unchanged. -/
theorem damage_envelope_applied_by_owner_witness :
    (handleRemoteDamage (baseState .client) 30 "player2").player2.health = 70 ∧
    (handleRemoteDamage (baseState .client) 30 "player2").player1.score
      = (baseState .client).player1.score ∧
    handleRemoteDamage (baseState .host) 30 "player2" = baseState .host := by
  have hcl := (damage_envelope_applied_by_owner (baseState .client) 30).1 rfl
  have hh := (damage_envelope_applied_by_owner (baseState .host) 30).2 rfl
  refine ⟨?_, ?_, hh⟩
  · rw [hcl.1]
    show jsMax 0 (100 - 30) = 70
    simp only [jsMax]
    norm_num
  · apply hcl.2.2
    show (30 : ℚ) < 100
    norm_num

/-- C4 (documents the divergence): on receiving game_start carrying
the host's mapData, the client overwrites only the decorationPositions
data lists; its rendered/collidable map objects — the trees,
collidables and scene arrays built by its own random generateMap run —
are untouched, so the two peers' obstacle layouts differ: the client's
tree_0 stays at x = 2 although the host's placement list puts tree_0
at x = 1. -/
theorem map_sync_not_applied :
    (handleNetworkMessage clientMapState 0 (.gameStart "bo3" (some hostMapData))).trees
        = clientMapState.trees ∧
    (handleNetworkMessage clientMapState 0 (.gameStart "bo3" (some hostMapData))).collidables
        = clientMapState.collidables ∧
    (handleNetworkMessage clientMapState 0 (.gameStart "bo3" (some hostMapData))).sceneObjs
        = clientMapState.sceneObjs ∧
    (handleNetworkMessage clientMapState 0 (.gameStart "bo3" (some hostMapData))).decorationPositions.trees
        = [hostTreePlacement] ∧
    clientTreeObj.position.1 ≠ hostTreePlacement.x := by
  refine ⟨rfl, rfl, rfl, rfl, ?_⟩
  show (2 : ℚ) ≠ 1
  norm_num

/-- C5 counterexample: after a mid-match data-channel close the
session is marked disconnected and the 'disconnected' event fires, but
the game state is untouched — gameStarted stays true, i.e. the match
state machine does NOT return to the Lobby as the claim states (the
game's 'disconnected' listener only logs). -/
theorem channel_close_no_lobby_return :
    (channelCloseStep midMatchManager (baseState .host)).1.isConnected = false ∧
    (channelCloseStep midMatchManager (baseState .host)).2.1 = ["disconnected"] ∧
    (channelCloseStep midMatchManager (baseState .host)).2.2.gameStarted = true :=
  ⟨rfl, rfl, rfl⟩

/-- C5 as amended: when the data channel closes mid-match, isConnected
becomes false, exactly the 'disconnected' event is emitted, every
subsequent send returns false and writes no frame (so the per-tick
player_update replication no longer delivers anything), and the game
state is left completely unchanged — in particular the match does not
return to the Lobby. -/
theorem channel_close_behavior (m : WebRTCManager) (g : GameState) :
    (channelCloseStep m g).1.isConnected = false ∧
    (channelCloseStep m g).2.1 = ["disconnected"] ∧
    (channelCloseStep m g).2.2 = g ∧
    (∀ (type : String) (data : MsgData) (now : ℕ),
      ((channelCloseStep m g).1).send type data now = (false, [])) := by
  refine ⟨rfl, rfl, rfl, ?_⟩
  intro t dta now
  simp [WebRTCManager.send, channelCloseStep, dataChannelOnClose]

/-- C6: send on a session without an open channel (isConnected false
or no data channel) returns false and writes nothing; on an open
channel it writes exactly one frame, the Envelope made of the type,
the data and the current time, and returns true. -/
theorem send_frame_behavior (m : WebRTCManager) (type : String) (data : MsgData)
    (now : ℕ) :
    ((m.isConnected = false ∨ m.hasDataChannel = false) →
      m.send type data now = (false, [])) ∧
    (m.isConnected = true → m.hasDataChannel = true →
      m.send type data now = (true, [{ type := type, data := data, timestamp := now }])) := by
  constructor
  · intro h
    rcases h with h | h <;> simp [WebRTCManager.send, h]
  · intro h1 h2
    simp [WebRTCManager.send, h1, h2]

/-- Witness for C6 at concrete inputs: the disconnected Responder
manager writes nothing and returns false; the connected mid-match
manager writes exactly one stamped envelope and returns true. -/
theorem send_frame_behavior_witness :
    freshJoinManager.send "damage" (.damage 30 "player2") 7 = (false, []) ∧
    midMatchManager.send "damage" (.damage 30 "player2") 7
      = (true, [{ type := "damage", data := .damage 30 "player2", timestamp := 7 }]) := by
  have h1 := (send_frame_behavior freshJoinManager "damage" (.damage 30 "player2") 7).1
    (Or.inl rfl)
  have h2 := (send_frame_behavior midMatchManager "damage" (.damage 30 "player2") 7).2
    rfl rfl
  exact ⟨h1, h2⟩

/-- C7: when the Responder submits a blob whose trimmed text is
nonempty but not parseable (JSON.parse throws), handleOfferSubmit
reports the invalid-offer error in the status line, creates no peer
transport, and leaves every connection-state field of the negotiator
unchanged, so a retry remains possible. -/
theorem malformed_offer_rejected (parse : String → Option SessionDesc)
    (m : WebRTCManager) (input : String)
    (hne : jsTrim input ≠ "") (hbad : parse (jsTrim input) = none) :
    (handleOfferSubmit parse m input).hasPeerConnection = m.hasPeerConnection ∧
    (handleOfferSubmit parse m input).hasDataChannel = m.hasDataChannel ∧
    (handleOfferSubmit parse m input).isConnected = m.isConnected ∧
    (handleOfferSubmit parse m input).role = m.role ∧
    (handleOfferSubmit parse m input).status
      = "Invalid Offer JSON or connection failed. Please try again." := by
  simp only [handleOfferSubmit]
  rw [if_neg hne, hbad]
  exact ⟨rfl, rfl, rfl, rfl, rfl⟩

/-- Witness for C7 at the concrete scenario input: the Responder
pasting "not-json" (rejected by the parser) keeps its transportless
negotiator state and shows the invalid-offer status. -/
theorem malformed_offer_rejected_witness :
    (handleOfferSubmit rejectAllParse freshJoinManager "not-json").hasPeerConnection
        = false ∧
    (handleOfferSubmit rejectAllParse freshJoinManager "not-json").isConnected = false ∧
    (handleOfferSubmit rejectAllParse freshJoinManager "not-json").status
        = "Invalid Offer JSON or connection failed. Please try again." := by
  have h := malformed_offer_rejected rejectAllParse freshJoinManager "not-json"
    (by decide) rfl
  exact ⟨h.1.trans rfl, h.2.2.1.trans rfl, h.2.2.2.2⟩

lemma lastTreeMatchIdx_none (trees : List SceneObj) (treeId : String)
    (h : ∀ t ∈ trees, t.id ≠ treeId) : lastTreeMatchIdx trees treeId = none := by
  induction trees with
  | nil => rfl
  | cons t ts ih =>
    have hts : ∀ u ∈ ts, u.id ≠ treeId := fun u hu => h u (List.mem_cons_of_mem t hu)
    simp only [lastTreeMatchIdx, ih hts]
    rw [if_neg (h t (List.mem_cons_self t ts))]

/-- C8: destroying an id whose tree is no longer present (for example
a second obstacle-destroyed envelope for an already-removed id) is a
complete no-op: the whole game state — in particular the trees list,
the collidables list and the scene — is unchanged. -/
theorem tree_destruction_idempotent (s : GameState) (treeId : String)
    (h : ∀ t ∈ s.trees, t.id ≠ treeId) :
    handleRemoteTreeDestruction s treeId = s := by
  simp only [handleRemoteTreeDestruction, lastTreeMatchIdx_none s.trees treeId h]

/-- Witness for C8 at the concrete scenario input: after tree_7 has
been destroyed once, applying the destruction handler for tree_7 a
second time changes nothing. -/
theorem tree_destruction_idempotent_witness :
    handleRemoteTreeDestruction (handleRemoteTreeDestruction treesState "tree_7") "tree_7"
      = handleRemoteTreeDestruction treesState "tree_7" := by
  apply tree_destruction_idempotent
  decide

lemma nodup_not_mem_eraseIdx (l : List SceneObj) (i : ℕ) (a : SceneObj)
    (hnd : l.Nodup) (hget : l[i]? = some a) : a ∉ l.eraseIdx i := by
  induction l generalizing i with
  | nil => simp at hget
  | cons x xs ih =>
    cases i with
    | zero =>
      simp only [List.getElem?_cons_zero, Option.some.injEq] at hget
      subst hget
      simpa [List.eraseIdx] using (List.nodup_cons.mp hnd).1
    | succ j =>
      simp only [List.getElem?_cons_succ] at hget
      simp only [List.eraseIdx, List.mem_cons]
      rintro (rfl | hmem)
      · exact (List.nodup_cons.mp hnd).1 (List.getElem?_mem hget)
      · exact ih j (List.nodup_cons.mp hnd).2 hget hmem

/-- C10: when handleRemoteTreeDestruction finds a matching tree at
index i, it removes that tree from the scene and from the trees array
(splice at i), but the collidables lookup then uses trees[i] AFTER the
splice: when a tree follows (the matched tree was not last) that
DIFFERENT tree's entry is erased from collidables, and when the
matched tree was last nothing is erased — in both cases the destroyed
tree's own collidables entry survives, so it stays collidable on the
receiving peer. -/
theorem tree_destruction_collidables_bug (s : GameState) (treeId : String) (i : ℕ)
    (matched : SceneObj)
    (hidx : lastTreeMatchIdx s.trees treeId = some i)
    (hget : s.trees[i]? = some matched)
    (hnd : s.trees.Nodup) :
    (handleRemoteTreeDestruction s treeId).trees = s.trees.eraseIdx i ∧
    (handleRemoteTreeDestruction s treeId).sceneObjs = s.sceneObjs.erase matched ∧
    (∀ c, (s.trees.eraseIdx i)[i]? = some c →
      c ≠ matched ∧
      (handleRemoteTreeDestruction s treeId).collidables = s.collidables.erase c) ∧
    ((s.trees.eraseIdx i)[i]? = none →
      (handleRemoteTreeDestruction s treeId).collidables = s.collidables) ∧
    (matched ∈ s.collidables →
      matched ∈ (handleRemoteTreeDestruction s treeId).collidables) := by
  have hnotmem : matched ∉ s.trees.eraseIdx i := nodup_not_mem_eraseIdx _ _ _ hnd hget
  rcases h3 : (s.trees.eraseIdx i)[i]? with _ | c
  · have hval : handleRemoteTreeDestruction s treeId =
        { s with sceneObjs := s.sceneObjs.erase matched, trees := s.trees.eraseIdx i } := by
      simp only [handleRemoteTreeDestruction, hidx, hget, h3]
    rw [hval]
    refine ⟨rfl, rfl, ?_, fun _ => rfl, fun hm => hm⟩
    intro c hc
    cases hc
  · have hcm : c ∈ s.trees.eraseIdx i := List.getElem?_mem h3
    have hne : c ≠ matched := by
      rintro rfl
      exact hnotmem hcm
    have hval : handleRemoteTreeDestruction s treeId =
        { s with sceneObjs := s.sceneObjs.erase matched, trees := s.trees.eraseIdx i,
                 collidables := s.collidables.erase c } := by
      simp only [handleRemoteTreeDestruction, hidx, hget, h3]
    rw [hval]
    refine ⟨rfl, rfl, ?_, ?_, ?_⟩
    · intro c2 hc2
      injection hc2 with hc2
      subst hc2
      exact ⟨hne, rfl⟩
    · intro hcon
      cases hcon
    · intro hm
      exact (List.mem_erase_of_ne (Ne.symm hne)).mpr hm

/-- Witness for C10 at a concrete input: destroying tree_7 in a map of
three distinct trees removes it from the trees array but erases the
FOLLOWING tree's (tree_9's) collidables entry, while tree_7 itself
stays collidable. -/
theorem tree_destruction_collidables_bug_witness :
    (handleRemoteTreeDestruction treesState "tree_7").trees = [treeA, treeC] ∧
    (handleRemoteTreeDestruction treesState "tree_7").collidables
      = [treeA, treeB] ∧
    treeB ∈ (handleRemoteTreeDestruction treesState "tree_7").collidables := by
  have h := tree_destruction_collidables_bug treesState "tree_7" 1 treeB rfl rfl
    (by decide)
  refine ⟨h.1, ?_, ?_⟩
  · have hc := (h.2.2.1 treeC rfl).2
    exact hc.trans (by decide)
  · exact h.2.2.2.2 (by decide)

/-- C9: a bullet announced by a bullet_spawn envelope is spawned with
isLocal = false, and the impact of such a remote bullet — an explosion
created with isLocal = false, which skips checkExplosionDamage
entirely — leaves both players' health, both scores, the trees list
and the collidables list unchanged (only the visual bullet and
explosion objects change). -/
theorem remote_bullet_no_side_effects (dist : V3 → V3 → ℚ) (s : GameState)
    (position direction point : V3) (i : ℕ) :
    (spawnRemoteBullet s position direction).bullets
        = s.bullets ++ [mkBullet position direction false] ∧
    (mkBullet position direction false).isLocal = false ∧
    (bulletImpact dist s (mkBullet position direction false) i point).player1.health
        = s.player1.health ∧
    (bulletImpact dist s (mkBullet position direction false) i point).player2.health
        = s.player2.health ∧
    (bulletImpact dist s (mkBullet position direction false) i point).player1.score
        = s.player1.score ∧
    (bulletImpact dist s (mkBullet position direction false) i point).player2.score
        = s.player2.score ∧
    (bulletImpact dist s (mkBullet position direction false) i point).trees = s.trees ∧
    (bulletImpact dist s (mkBullet position direction false) i point).collidables
        = s.collidables := by
  refine ⟨rfl, rfl, ?_, ?_, ?_, ?_, ?_, ?_⟩ <;>
    simp only [bulletImpact, removeBullet, createExplosion, mkBullet] <;>
      split_ifs <;> simp_all

end TankGame
